import Mathlib

/-!
Verification of `LinearRegressionwithErrors.fit` from
`src/regression/linear_model.py`.

The source builds a PyMC3 hierarchical errors-in-variables regression model:

* lines 16-17: `X = np.atleast_2d(X)`, `x_error = np.atleast_2d(x_error)`;
* lines 21-40: inside `with pm.Model():` it declares, in order,
  `slope = pm.Flat('slope', shape=(X.shape[0],))`, `inter = pm.Flat('inter')`,
  `int_std = pm.HalfFlat('int_std')`, `tau = pm.HalfFlat('tau', shape=(X.shape[0],))`,
  `mu = pm.Normal('mu', mu=0, sd=tau, shape=(X.shape[0],))`,
  `ksi = pm.Normal('ksi', mu=mu, tau=tau, shape=X.T.shape)`,
  `eta = pm.Normal('eta', mu=(tt.dot(slope.T, ksi.T) + inter), sd=int_std, shape=y.shape)`,
  `x = pm.Normal('xi', mu=ksi.T, sd=x_error, observed=X, shape=X.shape)`,
  `y = pm.Normal('yi', mu=eta, sd=y_error, observed=y, shape=y.shape)`;
* line 42: `self.trace = pm.sample(**sample_kwargs)`;
* line 44: `return self`.

We embed this shallowly: arrays are carried at the level of their numpy
shapes, Python objects distinguish ndarrays (which expose `.shape`) from
plain lists (which do not), distribution parameters are symbolic tensor
expressions, and model construction is an `Except` computation so that the
exact point at which a Python `AttributeError` is raised is visible.  The
external sampler (`pm.sample`) is a parameter of `fit`.
-/

namespace LinearModel

/-- A numpy array shape: a list of dimension sizes. -/
abbrev Shape := List Nat

/-- Shape-level semantics of numpy transposition `.T`: the axes are
reversed (a 1-d array is unchanged, a `(D, N)` matrix becomes `(N, D)`). -/
def transposeShape (s : Shape) : Shape := s.reverse

/-- Shape-level semantics of `np.atleast_2d`: a 0-d input becomes `(1, 1)`,
a 1-d input of length `n` becomes `(1, n)`, inputs with two or more
dimensions are unchanged. -/
def atleast_2d (s : Shape) : Shape :=
  match s with
  | [] => [1, 1]
  | [n] => [1, n]
  | a :: b :: t => a :: b :: t

/-- A Python object passed into `fit`: either a numpy ndarray of some shape,
or a plain Python list of some length (which has no `.shape` attribute). -/
inductive PyObj where
  | ndarray (shape : Shape)
  | pylist (len : Nat)
  deriving DecidableEq, Repr

/-- Python-level errors that the embedded code can raise. -/
inductive PyError where
  | attributeError (attr : String)
  deriving DecidableEq, Repr

/-- Reading the `.shape` attribute of a Python object: ndarrays expose it,
plain lists raise `AttributeError`. -/
def PyObj.shape : PyObj → Except PyError Shape
  | .ndarray s => .ok s
  | .pylist _ => .error (.attributeError "shape")

/-- The shape an object has once converted to an array (numpy converts a
list of length `n` to a 1-d array of shape `(n,)`). -/
def pyShape : PyObj → Shape
  | .ndarray s => s
  | .pylist n => [n]

/-- The function `np.atleast_2d` as applied to a Python object: it first
converts its argument to an array (so plain lists are accepted) and then
promotes the shape to at least two dimensions. -/
def np_atleast_2d : PyObj → PyObj
  | .ndarray s => .ndarray (atleast_2d s)
  | .pylist n => .ndarray (atleast_2d [n])

/-- Symbolic tensor expressions, as used for the distribution parameters in
the model: the constant 0, a reference to a previously declared model
variable, an input data object passed verbatim, transposition, dot product
and addition. -/
inductive TExpr where
  | zero
  | rv (name : String)
  | dataVal (name : String) (v : PyObj)
  | transpose (e : TExpr)
  | dot (a b : TExpr)
  | add (a b : TExpr)
  deriving DecidableEq, Repr

/-- How the dispersion of a Normal distribution is parameterized at the
call site: by a standard-deviation argument (`sd=`) or by a precision
argument (`tau=`).  The two are reciprocal-squared parameterizations. -/
inductive DispArg where
  | sd (e : TExpr)
  | tauArg (e : TExpr)
  deriving DecidableEq, Repr

/-- The distribution families the model uses: `pm.Flat`, `pm.HalfFlat`
(support restricted to the non-negative reals) and `pm.Normal` with a mean
expression and a dispersion argument. -/
inductive Dist where
  | flat
  | halfFlat
  | normal (mean : TExpr) (disp : DispArg)
  deriving DecidableEq, Repr

/-- The mean expression of a distribution, when it has one. -/
def Dist.meanOf : Dist → Option TExpr
  | .flat => none
  | .halfFlat => none
  | .normal mean _ => some mean

/-- One random-variable declaration inside the model: its name, its
distribution, its declared shape, and, for likelihood terms, the name of
the observed data bound to it. -/
structure RVDecl where
  name : String
  dist : Dist
  shape : Shape
  observed : Option String
  deriving DecidableEq, Repr

/-- A model is the ordered list of random-variable declarations made inside
the `with pm.Model():` block. -/
abbrev Model := List RVDecl

/-- The model-construction block of `fit` (source lines 19-40), given the
shape `Xs` of the already-coerced `X` and the (coerced) `x_error`, `y` and
`y_error` objects.  `y.shape` is read when `eta` is declared (line 36) and
when the observed `yi` is declared (line 40); nothing before that touches
`y`. -/
def buildModel (Xs : Shape) (x_error y y_error : PyObj) : Except PyError Model := do
  let slope : RVDecl := { name := "slope", dist := .flat, shape := [Xs.headD 0], observed := none }
  let inter : RVDecl := { name := "inter", dist := .flat, shape := [], observed := none }
  let int_std : RVDecl := { name := "int_std", dist := .halfFlat, shape := [], observed := none }
  let tau : RVDecl := { name := "tau", dist := .halfFlat, shape := [Xs.headD 0], observed := none }
  let mu : RVDecl :=
    { name := "mu", dist := .normal .zero (.sd (.rv "tau")),
      shape := [Xs.headD 0], observed := none }
  let ksi : RVDecl :=
    { name := "ksi", dist := .normal (.rv "mu") (.tauArg (.rv "tau")),
      shape := transposeShape Xs, observed := none }
  let ys ← y.shape
  let eta : RVDecl :=
    { name := "eta",
      dist := .normal (.add (.dot (.transpose (.rv "slope")) (.transpose (.rv "ksi"))) (.rv "inter"))
        (.sd (.rv "int_std")),
      shape := ys, observed := none }
  let x : RVDecl :=
    { name := "xi", dist := .normal (.transpose (.rv "ksi")) (.sd (.dataVal "x_error" x_error)),
      shape := Xs, observed := some "X" }
  let ys2 ← y.shape
  let yi : RVDecl :=
    { name := "yi", dist := .normal (.rv "eta") (.sd (.dataVal "y_error" y_error)),
      shape := ys2, observed := some "y" }
  pure [slope, inter, int_std, tau, mu, ksi, eta, x, yi]

/-- The keyword arguments of `pm.sample` that `fit` passes through; the
source default is `{'draws': 1000, 'target_accept': 0.9}`. -/
structure SampleKwargs where
  draws : Nat
  target_accept : Rat
  deriving DecidableEq, Repr

/-- The default `sample_kwargs` of `fit`. -/
def defaultSampleKwargs : SampleKwargs := { draws := 1000, target_accept := 9 / 10 }

/-- A posterior trace: for each variable name, a list of draws, each draw a
flat list of the components of that variable. -/
abbrev Trace := List (String × List (List Rat))

/-- The regressor: its only fit state is the stored posterior trace
(`self.trace`), absent before the first `fit`. -/
structure LinearRegressionwithErrors where
  trace : Option Trace
  deriving DecidableEq, Repr

/-- The method `LinearRegressionwithErrors.fit`, parameterized by the external sampler
(`pm.sample`).  Mirrors the source: coerce `X` and `x_error` with
`np.atleast_2d` (lines 16-17), build the model (lines 19-40), sample
(line 42), store the trace on `self` and return it (lines 42-44). -/
def fit (sampler : Model → SampleKwargs → Trace)
    (self : LinearRegressionwithErrors)
    (X y y_error x_error : PyObj)
    (sample_kwargs : SampleKwargs) :
    Except PyError LinearRegressionwithErrors := do
  let X2 := np_atleast_2d X
  let xe2 := np_atleast_2d x_error
  let m ← buildModel (pyShape X2) xe2 y y_error
  let tr := sampler m sample_kwargs
  pure { self with trace := some tr }

/-- The part of `fit` that runs before the `with pm.Model():` block opens
(source lines 16-17): only the two coercions.  It is total: no validation
happens here. -/
def fitPrelude (X x_error : PyObj) : PyObj × PyObj :=
  (np_atleast_2d X, np_atleast_2d x_error)

/-- Numpy broadcasting of a single pair of dimensions. -/
def broadcastDim (a b : Nat) : Option Nat :=
  if a = b then some a else if a = 1 then some b else if b = 1 then some a else none

/-- Numpy broadcasting on reversed (trailing-axis-first) shapes. -/
def broadcastRev : List Nat → List Nat → Option (List Nat)
  | [], bs => some bs
  | a :: as, [] => some (a :: as)
  | a :: as, b :: bs => do
    let d ← broadcastDim a b
    let rest ← broadcastRev as bs
    pure (d :: rest)

/-- Numpy broadcasting of two shapes (axes aligned at the trailing end). -/
def broadcastShape (a b : Shape) : Option Shape :=
  (broadcastRev a.reverse b.reverse).map List.reverse

/-- Shape of a dot product (theano `tt.dot` / numpy `dot` on vectors and
matrices): the last axis of the first operand is contracted against the
first axis of the second. -/
def dotShape : Shape → Shape → Option Shape
  | [k], [k2] => if k = k2 then some [] else none
  | [k], [k2, m] => if k = k2 then some [m] else none
  | [n, k], [k2] => if k = k2 then some [n] else none
  | [n, k], [k2, m] => if k = k2 then some [n, m] else none
  | _, _ => none

/-- Shape of a symbolic tensor expression, given an environment resolving
model-variable names to their declared shapes. -/
def exprShape (env : String → Option Shape) : TExpr → Option Shape
  | .zero => some []
  | .rv n => env n
  | .dataVal _ v => some (pyShape v)
  | .transpose e => (exprShape env e).map transposeShape
  | .dot a b => do dotShape (← exprShape env a) (← exprShape env b)
  | .add a b => do broadcastShape (← exprShape env a) (← exprShape env b)

/-- The shape environment induced by a model: each declared variable name
resolves to its declared shape. -/
def envOf (m : Model) : String → Option Shape :=
  fun n => (m.find? (fun d => d.name == n)).map RVDecl.shape

/-- Whether a value lies in the support of a distribution: `HalfFlat` is
supported on the non-negative reals, `Flat` and `Normal` on all reals. -/
def inSupport : Dist → Rat → Bool
  | .flat, _ => true
  | .halfFlat, v => decide (0 ≤ v)
  | .normal _ _, _ => true

/-- A trace is valid for a model when every recorded draw component of each
declared variable lies in the support of that variable's distribution.
Any sampler for the model produces only such traces. -/
def validTrace (t : Trace) (m : Model) : Prop :=
  ∀ d ∈ m, ∀ dr ∈ (t.lookup d.name).getD [], ∀ v ∈ dr, inSupport d.dist v = true

/-- A trace covers a model when it has an entry for every non-observed
(free) variable of the model. -/
def coversModel (t : Trace) (m : Model) : Prop :=
  ∀ d ∈ m, d.observed = none → (t.lookup d.name).isSome = true

/-- A degenerate sampler recording no draws at all; used to instantiate
statements that hold for every sampler. -/
def trivialSampler : Model → SampleKwargs → Trace := fun _ _ => []

/-- A sampler that records an (empty) list of draws for every variable of
the model; it covers the model and produces only valid traces. -/
def namesSampler : Model → SampleKwargs → Trace := fun m _ =>
  m.map (fun d => (d.name, []))

/-- The concrete model built from an X of shape (2, 5) and a y of length 5;
used to instantiate the theorems about `fit` at a concrete input. -/
def exampleModel : Model :=
  [{ name := "slope", dist := .flat, shape := [2], observed := none },
   { name := "inter", dist := .flat, shape := [], observed := none },
   { name := "int_std", dist := .halfFlat, shape := [], observed := none },
   { name := "tau", dist := .halfFlat, shape := [2], observed := none },
   { name := "mu", dist := .normal .zero (.sd (.rv "tau")), shape := [2], observed := none },
   { name := "ksi", dist := .normal (.rv "mu") (.tauArg (.rv "tau")), shape := [5, 2],
     observed := none },
   { name := "eta",
     dist := .normal (.add (.dot (.transpose (.rv "slope")) (.transpose (.rv "ksi"))) (.rv "inter"))
       (.sd (.rv "int_std")),
     shape := [5], observed := none },
   { name := "xi",
     dist := .normal (.transpose (.rv "ksi")) (.sd (.dataVal "x_error" (.ndarray [2, 5]))),
     shape := [2, 5], observed := some "X" },
   { name := "yi", dist := .normal (.rv "eta") (.sd (.dataVal "y_error" (.ndarray [5]))),
     shape := [5], observed := some "y" }]

/-- The trace `namesSampler` produces for `exampleModel`. -/
def exampleTrace : Trace := namesSampler exampleModel defaultSampleKwargs

end LinearModel

namespace LinearModel

/-! ### Helper lemmas -/

/-- Every entry of the `namesSampler` trace whose key occurs as a declared
name is present: auxiliary lookup fact. -/
theorem namesSampler_lookup_isSome (nm : String) (l : List RVDecl) (d : RVDecl)
    (hd : d ∈ l) (hnm : d.name = nm) :
    ((l.map (fun e => (e.name, ([] : List (List Rat))))).lookup nm).isSome = true := by
  induction l with
  | nil => cases hd
  | cons a as ih =>
    rcases List.mem_cons.mp hd with h1 | h2
    · subst h1; simp [List.lookup, hnm]
    · by_cases hb : (nm == a.name)
      · simp [List.lookup, hb]
      · simp only [List.map, List.lookup, hb]
        exact ih h2

/-- The sampler `namesSampler` covers every model it is given. -/
theorem namesSampler_covers (m : Model) (kw : SampleKwargs) :
    coversModel (namesSampler m kw) m :=
  fun d hd _ => namesSampler_lookup_isSome d.name m d hd rfl

/-- Every lookup in a `namesSampler` trace yields an empty draw list. -/
theorem namesSampler_lookup_getD (nm : String) (l : List RVDecl) :
    ((l.map (fun e => (e.name, ([] : List (List Rat))))).lookup nm).getD [] = [] := by
  induction l with
  | nil => rfl
  | cons a as ih =>
    by_cases hb : (nm == a.name)
    · simp [List.lookup, hb]
    · simpa [List.lookup, hb] using ih

/-- The sampler `namesSampler` produces only support-respecting traces. -/
theorem namesSampler_valid (m : Model) (kw : SampleKwargs) :
    validTrace (namesSampler m kw) m := by
  intro d hd dr hdr v hv
  rw [namesSampler, namesSampler_lookup_getD] at hdr
  cases hdr

/-- Whenever model construction succeeds, any trace covering the model has
entries for all seven free variables of the model. -/
theorem buildModel_free_names_covered (Xs : Shape) (xe y ye : PyObj) (m : Model) (t : Trace)
    (hm : buildModel Xs xe y ye = .ok m) (hc : coversModel t m) :
    ∀ nm ∈ (["slope", "inter", "int_std", "tau", "mu", "ksi", "eta"] : List String),
      (t.lookup nm).isSome = true := by
  cases y with
  | pylist n => exact Except.noConfusion hm
  | ndarray ys =>
    obtain rfl := Except.ok.inj hm
    intro nm hnm
    fin_cases hnm
    · exact hc _ (.head _) rfl
    · exact hc _ (.tail _ (.head _)) rfl
    · exact hc _ (.tail _ (.tail _ (.head _))) rfl
    · exact hc _ (.tail _ (.tail _ (.tail _ (.head _)))) rfl
    · exact hc _ (.tail _ (.tail _ (.tail _ (.tail _ (.head _))))) rfl
    · exact hc _ (.tail _ (.tail _ (.tail _ (.tail _ (.tail _ (.head _)))))) rfl
    · exact hc _ (.tail _ (.tail _ (.tail _ (.tail _ (.tail _ (.tail _ (.head _))))))) rfl

/-! ### Claim theorems -/

/-- C1: in the model `fit` constructs, the latent true covariates `ksi` are
declared Normal with mean `mu` (one mean per covariate dimension, broadcast
across the N observations), with dispersion governed by `tau`, and with
shape (N, D) — the transpose of the coerced X's shape (D, N); `mu` itself
is declared Normal with mean 0 and standard deviation `tau`, one value per
covariate dimension D, so the same variable `tau` parameterizes both `mu`'s
prior and `ksi`'s dispersion. -/
theorem C1_ksi_mu_declarations (D N : Nat) (xe ye : PyObj) (ys : Shape) (m : Model)
    (hm : buildModel [D, N] xe (.ndarray ys) ye = .ok m) :
    m.find? (fun d => d.name == "ksi") =
      some { name := "ksi", dist := .normal (.rv "mu") (.tauArg (.rv "tau")),
             shape := [N, D], observed := none } ∧
    transposeShape [D, N] = [N, D] ∧
    m.find? (fun d => d.name == "mu") =
      some { name := "mu", dist := .normal .zero (.sd (.rv "tau")),
             shape := [D], observed := none } := by
  obtain rfl := Except.ok.inj hm
  exact ⟨rfl, rfl, rfl⟩

/-- Witness for C1 at D = 2, N = 5. -/
theorem C1_ksi_mu_declarations_witness :
    exampleModel.find? (fun d => d.name == "ksi") =
      some { name := "ksi", dist := .normal (.rv "mu") (.tauArg (.rv "tau")),
             shape := [5, 2], observed := none } ∧
    transposeShape [2, 5] = [5, 2] ∧
    exampleModel.find? (fun d => d.name == "mu") =
      some { name := "mu", dist := .normal .zero (.sd (.rv "tau")),
             shape := [2], observed := none } :=
  C1_ksi_mu_declarations 2 5 (.ndarray [2, 5]) (.ndarray [5]) [5] exampleModel rfl

/-- C2: in the constructed model, `mu`'s prior passes `tau` as a
standard-deviation argument while `ksi`'s prior passes the same variable
`tau` as a precision argument, for every invocation of `fit` that reaches
model construction. -/
theorem C2_mixed_parameterization (Xs : Shape) (xe y ye : PyObj) (m : Model)
    (hm : buildModel Xs xe y ye = .ok m) :
    ∃ dmu dksi : RVDecl,
      m.find? (fun d => d.name == "mu") = some dmu ∧
      m.find? (fun d => d.name == "ksi") = some dksi ∧
      dmu.dist = .normal .zero (.sd (.rv "tau")) ∧
      dksi.dist = .normal (.rv "mu") (.tauArg (.rv "tau")) := by
  cases y with
  | pylist n => exact Except.noConfusion hm
  | ndarray ys =>
    obtain rfl := Except.ok.inj hm
    exact ⟨_, _, rfl, rfl, rfl, rfl⟩

/-- Witness for C2 at the concrete model built from a (2, 5) input. -/
theorem C2_mixed_parameterization_witness :
    ∃ dmu dksi : RVDecl,
      exampleModel.find? (fun d => d.name == "mu") = some dmu ∧
      exampleModel.find? (fun d => d.name == "ksi") = some dksi ∧
      dmu.dist = .normal .zero (.sd (.rv "tau")) ∧
      dksi.dist = .normal (.rv "mu") (.tauArg (.rv "tau")) :=
  C2_mixed_parameterization [2, 5] (.ndarray [2, 5]) (.ndarray [5]) (.ndarray [5]) exampleModel rfl

/-- C3: in the constructed model, the latent true response `eta` is a
Normal variable of shape (N,) whose mean is the dot product of the slope
with `ksi` along the D axis (both transposed, so the result has length N)
plus the intercept, and whose standard deviation is the intrinsic scatter
`int_std`; the mean expression indeed has shape (N,) under the model's
declared shapes. -/
theorem C3_eta_declaration (D N : Nat) (xe ye : PyObj) (m : Model)
    (hm : buildModel [D, N] xe (.ndarray [N]) ye = .ok m) :
    m.find? (fun d => d.name == "eta") =
      some { name := "eta",
             dist := .normal
               (.add (.dot (.transpose (.rv "slope")) (.transpose (.rv "ksi"))) (.rv "inter"))
               (.sd (.rv "int_std")),
             shape := [N], observed := none } ∧
    exprShape (envOf m)
      (.add (.dot (.transpose (.rv "slope")) (.transpose (.rv "ksi"))) (.rv "inter")) =
      some [N] := by
  obtain rfl := Except.ok.inj hm
  refine ⟨rfl, ?_⟩
  simp [exprShape, envOf, dotShape, broadcastShape, broadcastRev, broadcastDim, transposeShape,
    List.find?]

/-- Witness for C3 at D = 2, N = 5. -/
theorem C3_eta_declaration_witness :
    exampleModel.find? (fun d => d.name == "eta") =
      some { name := "eta",
             dist := .normal
               (.add (.dot (.transpose (.rv "slope")) (.transpose (.rv "ksi"))) (.rv "inter"))
               (.sd (.rv "int_std")),
             shape := [5], observed := none } ∧
    exprShape (envOf exampleModel)
      (.add (.dot (.transpose (.rv "slope")) (.transpose (.rv "ksi"))) (.rv "inter")) =
      some [5] :=
  C3_eta_declaration 2 5 (.ndarray [2, 5]) (.ndarray [5]) exampleModel rfl

/-- C4: in the constructed model the observed data are bound as two Normal
likelihood terms: `xi` with mean `ksi` transposed (of shape (D, N) under
the declared shapes), standard deviation the passed `x_error`, observed
values X; and `yi` with mean `eta`, standard deviation the passed
`y_error`, observed values the response data. -/
theorem C4_observed_likelihoods (D N : Nat) (xe ye : PyObj) (m : Model)
    (hm : buildModel [D, N] xe (.ndarray [N]) ye = .ok m) :
    m.find? (fun d => d.name == "xi") =
      some { name := "xi", dist := .normal (.transpose (.rv "ksi")) (.sd (.dataVal "x_error" xe)),
             shape := [D, N], observed := some "X" } ∧
    exprShape (envOf m) (.transpose (.rv "ksi")) = some [D, N] ∧
    m.find? (fun d => d.name == "yi") =
      some { name := "yi", dist := .normal (.rv "eta") (.sd (.dataVal "y_error" ye)),
             shape := [N], observed := some "y" } := by
  obtain rfl := Except.ok.inj hm
  exact ⟨rfl, rfl, rfl⟩

/-- Witness for C4 at D = 2, N = 5. -/
theorem C4_observed_likelihoods_witness :
    exampleModel.find? (fun d => d.name == "xi") =
      some { name := "xi",
             dist := .normal (.transpose (.rv "ksi")) (.sd (.dataVal "x_error" (.ndarray [2, 5]))),
             shape := [2, 5], observed := some "X" } ∧
    exprShape (envOf exampleModel) (.transpose (.rv "ksi")) = some [2, 5] ∧
    exampleModel.find? (fun d => d.name == "yi") =
      some { name := "yi",
             dist := .normal (.rv "eta") (.sd (.dataVal "y_error" (.ndarray [5]))),
             shape := [5], observed := some "y" } :=
  C4_observed_likelihoods 2 5 (.ndarray [2, 5]) (.ndarray [5]) exampleModel rfl

/-- C5: `fit` declares the slope with a fully flat prior of shape (D,), the
intercept with a flat scalar prior, `int_std` with a half-flat (non-negative,
otherwise flat) scalar prior, and `tau` with a half-flat prior of shape
(D,), for every input that reaches model construction. -/
theorem C5_flat_priors (D N : Nat) (xe ye : PyObj) (ys : Shape) (m : Model)
    (hm : buildModel [D, N] xe (.ndarray ys) ye = .ok m) :
    m.find? (fun d => d.name == "slope") =
      some { name := "slope", dist := .flat, shape := [D], observed := none } ∧
    m.find? (fun d => d.name == "inter") =
      some { name := "inter", dist := .flat, shape := [], observed := none } ∧
    m.find? (fun d => d.name == "int_std") =
      some { name := "int_std", dist := .halfFlat, shape := [], observed := none } ∧
    m.find? (fun d => d.name == "tau") =
      some { name := "tau", dist := .halfFlat, shape := [D], observed := none } := by
  obtain rfl := Except.ok.inj hm
  exact ⟨rfl, rfl, rfl, rfl⟩

/-- Witness for C5 at D = 2, N = 5. -/
theorem C5_flat_priors_witness :
    exampleModel.find? (fun d => d.name == "slope") =
      some { name := "slope", dist := .flat, shape := [2], observed := none } ∧
    exampleModel.find? (fun d => d.name == "inter") =
      some { name := "inter", dist := .flat, shape := [], observed := none } ∧
    exampleModel.find? (fun d => d.name == "int_std") =
      some { name := "int_std", dist := .halfFlat, shape := [], observed := none } ∧
    exampleModel.find? (fun d => d.name == "tau") =
      some { name := "tau", dist := .halfFlat, shape := [2], observed := none } :=
  C5_flat_priors 2 5 (.ndarray [2, 5]) (.ndarray [5]) [5] exampleModel rfl

/-- C6 counterexample: with X of shape (2, 10) and y of length 9
(mismatched), and error arrays matching each of them, `fit` raises no error
at all: the pre-model-construction phase (the two coercions) is total, the
model-construction block succeeds, and `fit` returns normally, so no
shape/validation error is raised before model construction, contrary to the
claim. -/
theorem C6_counterexample_no_early_failure :
    fitPrelude (.ndarray [2, 10]) (.ndarray [2, 10]) =
      (.ndarray [2, 10], .ndarray [2, 10]) ∧
    fit trivialSampler { trace := none } (.ndarray [2, 10]) (.ndarray [9])
      (.ndarray [9]) (.ndarray [2, 10]) defaultSampleKwargs =
      .ok { trace := some [] } :=
  ⟨rfl, rfl⟩

/-- C6 amended: `fit` performs no shape validation of its own before (or
during) model construction: with X of shape (2, 10) and y of length 9, the
coercions and the model construction complete without error, and the
constructed model instead contains the inconsistency — `eta` is declared
with shape [9] (from y) while its mean expression has shape [10] (from
X.shape[1]) — which is left to the external engine to reject, no earlier
than its processing of the model. -/
theorem C6_amended_model_inconsistency :
    ∃ m : Model,
      buildModel [2, 10] (.ndarray [2, 10]) (.ndarray [9]) (.ndarray [9]) = .ok m ∧
      ∃ d : RVDecl, m.find? (fun x => x.name == "eta") = some d ∧
        d.shape = [9] ∧
        d.dist.meanOf.bind (exprShape (envOf m)) = some [10] ∧
        some d.shape ≠ d.dist.meanOf.bind (exprShape (envOf m)) :=
  ⟨_, rfl, _, rfl, rfl, rfl, by decide⟩

/-- C7: after every successful `fit`, the sampled trace is stored on the
returned regressor (covering slope, inter, int_std, tau, mu, ksi and eta
whenever the sampler covers the model's free variables), `fit` returns the
updated regressor itself rather than the trace, and the result of the call
is independent of any previously stored trace — a second `fit` on the same
regressor overwrites rather than merges. -/
theorem C7_trace_state (sampler : Model → SampleKwargs → Trace)
    (hs : ∀ (m : Model) (kw : SampleKwargs), coversModel (sampler m kw) m)
    (self : LinearRegressionwithErrors) (X y y_error x_error : PyObj)
    (kw : SampleKwargs) (r : LinearRegressionwithErrors)
    (h : fit sampler self X y y_error x_error kw = .ok r) :
    (∃ m : Model,
      buildModel (pyShape (np_atleast_2d X)) (np_atleast_2d x_error) y y_error = .ok m ∧
      r = { self with trace := some (sampler m kw) } ∧
      ∀ nm ∈ (["slope", "inter", "int_std", "tau", "mu", "ksi", "eta"] : List String),
        ((sampler m kw).lookup nm).isSome = true) ∧
    ∀ self2 : LinearRegressionwithErrors,
      fit sampler self2 X y y_error x_error kw = .ok r := by
  cases y with
  | pylist n => exact Except.noConfusion h
  | ndarray ys =>
    obtain rfl := Except.ok.inj h
    exact ⟨⟨_, rfl, rfl,
      buildModel_free_names_covered (pyShape (np_atleast_2d X)) (np_atleast_2d x_error)
        (.ndarray ys) y_error _ _ rfl (hs _ kw)⟩,
      fun self2 => rfl⟩

/-- Witness for C7 with the covering sampler `namesSampler` at a (2, 5)
input. -/
theorem C7_trace_state_witness :
    (∃ m : Model,
      buildModel (pyShape (np_atleast_2d (.ndarray [2, 5]))) (np_atleast_2d (.ndarray [2, 5]))
        (.ndarray [5]) (.ndarray [5]) = .ok m ∧
      ({ trace := some exampleTrace } : LinearRegressionwithErrors) =
        { trace := some (namesSampler m defaultSampleKwargs) } ∧
      ∀ nm ∈ (["slope", "inter", "int_std", "tau", "mu", "ksi", "eta"] : List String),
        ((namesSampler m defaultSampleKwargs).lookup nm).isSome = true) ∧
    ∀ self2 : LinearRegressionwithErrors,
      fit namesSampler self2 (.ndarray [2, 5]) (.ndarray [5]) (.ndarray [5]) (.ndarray [2, 5])
        defaultSampleKwargs = .ok { trace := some exampleTrace } :=
  C7_trace_state namesSampler namesSampler_covers { trace := none } (.ndarray [2, 5])
    (.ndarray [5]) (.ndarray [5]) (.ndarray [2, 5]) defaultSampleKwargs
    { trace := some exampleTrace } rfl

/-- C8: for every draw in the posterior trace stored by `fit` — for any
sampler that produces support-respecting traces — the sampled `int_std`
value and every component of the sampled `tau` vector are non-negative,
because both are declared with half-flat priors. -/
theorem C8_nonneg_draws (sampler : Model → SampleKwargs → Trace)
    (hv : ∀ (m : Model) (kw : SampleKwargs), validTrace (sampler m kw) m)
    (self : LinearRegressionwithErrors) (X y y_error x_error : PyObj)
    (kw : SampleKwargs) (r : LinearRegressionwithErrors) (t : Trace)
    (h : fit sampler self X y y_error x_error kw = .ok r)
    (ht : r.trace = some t) :
    (∀ dr ∈ (t.lookup "int_std").getD [], ∀ v ∈ dr, (0 : Rat) ≤ v) ∧
    (∀ dr ∈ (t.lookup "tau").getD [], ∀ v ∈ dr, (0 : Rat) ≤ v) := by
  cases y with
  | pylist n => exact Except.noConfusion h
  | ndarray ys =>
    obtain rfl := Except.ok.inj h
    obtain rfl := Option.some.inj ht
    constructor
    · intro dr hdr v hvm
      have hsup := hv _ kw
        { name := "int_std", dist := .halfFlat, shape := [], observed := none }
        (List.Mem.tail _ (List.Mem.tail _ (List.Mem.head _))) dr hdr v hvm
      exact of_decide_eq_true hsup
    · intro dr hdr v hvm
      have hsup := hv _ kw
        { name := "tau", dist := .halfFlat, shape := [List.headD (pyShape (np_atleast_2d X)) 0],
          observed := none }
        (List.Mem.tail _ (List.Mem.tail _ (List.Mem.tail _ (List.Mem.head _)))) dr hdr v hvm
      exact of_decide_eq_true hsup

/-- Witness for C8 with the valid sampler `namesSampler` at a (2, 5)
input. -/
theorem C8_nonneg_draws_witness :
    (∀ dr ∈ (exampleTrace.lookup "int_std").getD [], ∀ v ∈ dr, (0 : Rat) ≤ v) ∧
    (∀ dr ∈ (exampleTrace.lookup "tau").getD [], ∀ v ∈ dr, (0 : Rat) ≤ v) :=
  C8_nonneg_draws namesSampler namesSampler_valid { trace := none } (.ndarray [2, 5])
    (.ndarray [5]) (.ndarray [5]) (.ndarray [2, 5]) defaultSampleKwargs
    { trace := some exampleTrace } exampleTrace rfl rfl

/-- C9: at the start of every `fit` call, X and x_error are each coerced
with `np.atleast_2d`: a 1-D input of length n is promoted to shape (1, n),
the coerced shape always has at least two dimensions, lists and arrays are
both accepted by the coercion, the two inputs are coerced by the same
function, and the model is then built from the coerced arrays. -/
theorem C9_atleast2d_coercion (sampler : Model → SampleKwargs → Trace)
    (self : LinearRegressionwithErrors) (X y y_error x_error : PyObj) (kw : SampleKwargs) :
    (∀ n : Nat, atleast_2d [n] = [1, n]) ∧
    (∀ s : Shape, (atleast_2d s).length = max 2 s.length) ∧
    (∀ o : PyObj, np_atleast_2d o = .ndarray (atleast_2d (pyShape o))) ∧
    fit sampler self X y y_error x_error kw =
      (buildModel (pyShape (np_atleast_2d X)) (np_atleast_2d x_error) y y_error).map
        (fun m => { self with trace := some (sampler m kw) }) := by
  refine ⟨fun n => rfl, ?_, ?_, ?_⟩
  · intro s
    match s with
    | [] => rfl
    | [n] => rfl
    | a :: b :: t => simp [atleast_2d]
  · intro o
    cases o <;> rfl
  · rcases hbm : buildModel (pyShape (np_atleast_2d X)) (np_atleast_2d x_error) y y_error
      with e | m
    · simp only [fit]; rw [hbm]; rfl
    · simp only [fit]; rw [hbm]; rfl

/-- Witness for C9 at a concrete call whose X and x_error are plain lists
of length 5. -/
theorem C9_atleast2d_coercion_witness :
    (∀ n : Nat, atleast_2d [n] = [1, n]) ∧
    (∀ s : Shape, (atleast_2d s).length = max 2 s.length) ∧
    (∀ o : PyObj, np_atleast_2d o = .ndarray (atleast_2d (pyShape o))) ∧
    fit namesSampler { trace := none } (.pylist 5) (.ndarray [5]) (.ndarray [5]) (.pylist 5)
        defaultSampleKwargs =
      (buildModel (pyShape (np_atleast_2d (.pylist 5))) (np_atleast_2d (.pylist 5))
          (.ndarray [5]) (.ndarray [5])).map
        (fun m => { trace := some (namesSampler m defaultSampleKwargs) }) :=
  C9_atleast2d_coercion namesSampler { trace := none } (.pylist 5) (.ndarray [5]) (.ndarray [5])
    (.pylist 5) defaultSampleKwargs

/-- C10: `fit` requires y — but not X or x_error — to expose a `.shape`
attribute: with y a plain Python list, `fit` raises `AttributeError` for
any sampler (so before any sampling), the error arises inside the
model-construction block when `y.shape` is read, and a call whose X and
x_error are plain lists but whose y is an array succeeds, because only X
and x_error receive the `np.atleast_2d` coercion. -/
theorem C10_y_needs_shape_attribute (sampler : Model → SampleKwargs → Trace)
    (self : LinearRegressionwithErrors) (n : Nat) (Xs : Shape) (y_error x_error : PyObj)
    (kw : SampleKwargs) :
    fit sampler self (.ndarray Xs) (.pylist n) y_error x_error kw =
      .error (.attributeError "shape") ∧
    buildModel (atleast_2d Xs) (np_atleast_2d x_error) (.pylist n) y_error =
      .error (.attributeError "shape") ∧
    (∀ nx nxe ny : Nat, ∃ r, fit sampler self (.pylist nx) (.ndarray [ny]) y_error (.pylist nxe)
      kw = .ok r) :=
  ⟨rfl, rfl, fun _ _ _ => ⟨_, rfl⟩⟩

/-- Witness for C10 at a concrete call with y a list of length 5. -/
theorem C10_y_needs_shape_attribute_witness :
    fit namesSampler { trace := none } (.ndarray [2, 5]) (.pylist 5) (.ndarray [5])
      (.ndarray [2, 5]) defaultSampleKwargs = .error (.attributeError "shape") ∧
    buildModel (atleast_2d [2, 5]) (np_atleast_2d (.ndarray [2, 5])) (.pylist 5) (.ndarray [5]) =
      .error (.attributeError "shape") ∧
    (∀ nx nxe ny : Nat, ∃ r, fit namesSampler { trace := none } (.pylist nx) (.ndarray [ny])
      (.ndarray [5]) (.pylist nxe) defaultSampleKwargs = .ok r) :=
  C10_y_needs_shape_attribute namesSampler { trace := none } 5 [2, 5] (.ndarray [5])
    (.ndarray [2, 5]) defaultSampleKwargs

end LinearModel
